import Mathlib

set_option maxRecDepth 40000

/-!
Verification development for the BeagleWatch RSS-to-Markdown ingestion
pipeline.  The Python services (`FeedFetcher.parse_item`,
`AssetManager.download_to_temp` / `final_asset_path`,
`MarkdownStore.exists_guid_or_fp` / `atomic_write_post`) are embedded
shallowly: pure string manipulation becomes Lean functions on `String`,
the SQLite table becomes a list of rows, the content directory becomes a
list of file names, and the external effects (fresh temp-file names, the
wall clock, the HTTP transport) become explicit parameters.  The SHA-256
digest from `hashlib` is kept abstract as a `String → String` parameter;
statements that need distinct digests for distinct inputs assume the
parameter is injective.
-/

namespace BeagleWatch

/-! ## Python string primitives -/

/-- The characters matched by Python's regex class for whitespace
(ASCII range, which is all the feed pipeline relies on). -/
def isPySpace (c : Char) : Bool :=
  c = ' ' || c = '\t' || c = '\n' || c = '\r' || c = '\x0b' || c = '\x0c'

/-- Core of `re.sub` with the one-or-more-whitespace pattern replaced by a
single space: every maximal run of whitespace characters collapses to one
space.  The boolean records whether the previous character was whitespace. -/
def collapseWsAux : Bool → List Char → List Char
  | _, [] => []
  | inRun, c :: rest =>
    if isPySpace c then
      if inRun then collapseWsAux true rest
      else ' ' :: collapseWsAux true rest
    else c :: collapseWsAux false rest

/-- `re.sub` collapsing whitespace runs to single spaces, as used for the
fingerprint preimage in `FeedFetcher.parse_item`. -/
def normalizeWs (s : String) : String := ⟨collapseWsAux false s.data⟩

/-- Python `str.strip()`: drop leading and trailing whitespace. -/
def pyStrip (s : String) : String :=
  ⟨((s.data.dropWhile fun c => isPySpace c).reverse.dropWhile fun c => isPySpace c).reverse⟩

/-- Python string slicing `s[:n]`. -/
def pyTake (n : Nat) (s : String) : String := ⟨s.data.take n⟩

/-- Python truthiness of an optional string: `None` and the empty string
are falsy, everything else truthy. -/
def optTruthy : Option String → Bool
  | none => false
  | some s => s ≠ ""

/-- Python `a or b` on optional strings: keep `a` when truthy, else `b`. -/
def pyOrOpt (a b : Option String) : Option String :=
  if optTruthy a then a else b

/-- Python `a or b` on strings (empty string is falsy). -/
def pyOrStr (a b : String) : String := if a = "" then b else a

/-! ## Timestamps

`parse_item` builds `published_iso` and `published_date_str` either from
the entry's parsed time tuple (`datetime(*tuple[:6])`, a naive datetime)
or from the module-level `now`.  The wall clock is an explicit parameter
here; the tuple case is computed faithfully. -/

structure TimeTuple where
  year : Nat
  month : Nat
  day : Nat
  hour : Nat
  minute : Nat
  second : Nat
deriving DecidableEq, Repr

/-- Zero-pad a number to two digits, as `datetime` formatting does. -/
def pad2 (n : Nat) : String := if n < 10 then "0" ++ toString n else toString n

/-- Zero-pad a year to four digits. -/
def pad4 (n : Nat) : String :=
  if n < 10 then "000" ++ toString n
  else if n < 100 then "00" ++ toString n
  else if n < 1000 then "0" ++ toString n
  else toString n

/-- `datetime(y, m, d, h, mi, s).isoformat()` for a naive datetime with
zero microseconds. -/
def isoformatNaive (t : TimeTuple) : String :=
  pad4 t.year ++ "-" ++ pad2 t.month ++ "-" ++ pad2 t.day ++ "T" ++
    pad2 t.hour ++ ":" ++ pad2 t.minute ++ ":" ++ pad2 t.second

/-- `datetime.strftime` with the year-month-day format. -/
def dateStr (t : TimeTuple) : String :=
  pad4 t.year ++ "-" ++ pad2 t.month ++ "-" ++ pad2 t.day

/-! ## Feed model: `model/FeedItem.py` and `services/FeedFetcher.py` -/

/-- An enclosure reference attached to a raw entry (a dict with optional
`href`/`url` keys in the source). -/
structure Enclosure where
  href : Option String
  url : Option String
deriving DecidableEq, Repr

/-- `FeedItem` dataclass from `model/FeedItem.py`. -/
structure FeedItem where
  guid : Option String
  fingerprint : String
  title : String
  link : String
  content : String
  published_iso : String
  published_date_str : String
  enclosures : List Enclosure
deriving DecidableEq, Repr

/-- A raw feedparser entry as `parse_item` consumes it: each `entry.get`
key becomes an optional field; `content` is the list of content blocks
(`entry.content[k].value`), empty when the key is missing or empty (both
falsy in Python).  feedparser's `FeedParserDict.keymap` aliases the
`guid` key to `id`, so on every entry the parser produces the `guid` and
`id` fields carry the same value; both fields are kept so the source's
two reads stay visible, and guid-resolution statements carry the
`e.guid = e.id` constraint. -/
structure RawEntry where
  title : Option String
  guid : Option String
  id : Option String
  link : Option String
  contentBlocks : List String
  description : Option String
  summary : Option String
  published_parsed : Option TimeTuple
  updated_parsed : Option TimeTuple
  enclosures : List Enclosure
deriving DecidableEq, Repr

/-- `(entry.get("title") or "").strip()`. -/
def resolveTitle (e : RawEntry) : String :=
  pyStrip (pyOrStr (e.title.getD "") "")

/-- `entry.get("guid") or entry.get("id") or entry.get("link")` — the
guid fallback chain exactly as the source orders it.  On entries
feedparser produces the first two reads agree (the `guid` key is an
alias for `id`), so the order of those two is unobservable there. -/
def resolveGuidChain (e : RawEntry) : Option String :=
  pyOrOpt e.guid (pyOrOpt e.id e.link)

/-- The guid fallback chain as the claim words it — the id field *first*,
then the guid field, then the link.  Written from the spec sentence for
comparison with the code's `resolveGuidChain`. -/
def resolveGuid_specwords (e : RawEntry) : Option String :=
  let g := pyOrOpt e.id (pyOrOpt e.guid e.link)
  if optTruthy g then g else none

/-- `entry.get("link", "") or ""`. -/
def resolveLink (e : RawEntry) : String :=
  pyOrStr (e.link.getD "") ""

/-- The content fallback: the first content block when `entry.get("content")`
is truthy, else `entry.get("description", "") or entry.get("summary", "")`;
the result is then stripped. -/
def resolveContent (e : RawEntry) : String :=
  pyStrip (match e.contentBlocks with
    | v :: _ => v
    | [] => pyOrStr (e.description.getD "") (e.summary.getD ""))

/-- The string hashed for the fingerprint:
`(title or "") + "|" + (link or "") + "|" + re.sub(whitespace, " ", content or "")[:2000]`. -/
def fingerprintInput (title link content : String) : String :=
  pyOrStr title "" ++ "|" ++ pyOrStr link "" ++ "|" ++
    pyTake 2000 (normalizeWs (pyOrStr content ""))

/-- `FeedFetcher.parse_item`.  `hash` stands for `sha256_hex`; `nowIso`
and `nowDate` are `now.isoformat()` and `now.strftime("%Y-%m-%d")` for the
module-level wall-clock value used when the entry carries no timestamp. -/
def parse_item (hash : String → String) (nowIso nowDate : String)
    (e : RawEntry) : FeedItem :=
  let title := resolveTitle e
  let guid := resolveGuidChain e
  let link := resolveLink e
  let content := resolveContent e
  let pub := match e.published_parsed with
    | some t => some t
    | none => e.updated_parsed
  let published_iso := (match pub with
    | some t => isoformatNaive t
    | none => nowIso) ++ "Z"
  let published_date_str := match pub with
    | some t => dateStr t
    | none => nowDate
  let fingerprint := hash (fingerprintInput title link content)
  { guid := if optTruthy guid then guid else none
    fingerprint := fingerprint
    title := pyOrStr title "untitled"
    link := link
    content := content
    published_iso := published_iso
    published_date_str := published_date_str
    enclosures := e.enclosures }

/-! ## Slugs: `safe_slug` from `services/MarkdownStore.py` -/

/-- The external `python-slugify` library, modelled on ASCII input per its
documented behaviour: lowercase, every run of non-alphanumeric characters
becomes a single hyphen, and no leading or trailing hyphen remains. -/
def slugify_model (s : String) : String :=
  let mapped : List Char := s.data.map fun c =>
    if (c.toLower).isLower || c.isDigit then c.toLower else ' '
  let squeezed := (pyStrip ⟨collapseWsAux false mapped⟩).data
  ⟨squeezed.map fun c => if c = ' ' then '-' else c⟩

/-- `safe_slug`: slugify (with a `"post"` fallback for an empty input),
keep only lowercase letters, digits and hyphens, truncate to 200
characters, and fall back to `"post"` when nothing remains. -/
def safe_slug (s : String) : String :=
  let sl := slugify_model (pyOrStr s "post")
  let kept : String := ⟨sl.data.filter fun c => c.isLower || c.isDigit || c = '-'⟩
  pyOrStr (pyTake 200 kept) "post"

/-! ## `services/AssetManager.py`

The destination directory's contents are carried around explicitly as the
list of file names that exist in it (`dest.exists()` becomes membership in
that list); `tempfile.mkstemp`'s fresh name and the HTTP transport are
parameters. -/

/-- Index of the dot that `pathlib` splits a file name at: the last `.`,
provided it is neither the first nor past the last character. -/
def pyDotIdx (cs : List Char) : Option Nat :=
  ((List.range cs.length).filter fun i =>
    cs.getD i ' ' = '.' && decide (0 < i) && decide (i + 1 < cs.length)).getLast?

/-- `PurePath.stem`: the file name without its final suffix. -/
def pyStem (name : String) : String :=
  match pyDotIdx name.data with
  | some i => ⟨name.data.take i⟩
  | none => name

/-- `PurePath.suffix`: the final extension, dot included, possibly empty. -/
def pySuffix (name : String) : String :=
  match pyDotIdx name.data with
  | some i => ⟨name.data.drop i⟩
  | none => ""

/-- One step of the collision loop: the next candidate is built from the
stem and suffix of the *current* candidate, with counter `i`. -/
def nextCand (dest : String) (i : Nat) : String :=
  pyStem dest ++ "-" ++ toString i ++ pySuffix dest

/-- The `while dest.exists()` loop of `final_asset_path`, with explicit
fuel.  The loop always terminates because successive candidates strictly
grow in length, so at most `occupied.length` of them can collide. -/
def finalAssetPathAux (occupied : List String) : Nat → String → Nat → String
  | 0, dest, _ => dest
  | fuel + 1, dest, i =>
    if dest ∈ occupied then finalAssetPathAux occupied fuel (nextCand dest i) (i + 1)
    else dest

/-- `AssetManager.final_asset_path`, as a function of the set of file
names already present in the destination directory. -/
def final_asset_path (occupied : List String) (filename : String) : String :=
  finalAssetPathAux occupied (occupied.length + 1) filename 1

/-- The sequence of candidates the loop actually walks:
`filename`, then `nextCand` applied repeatedly with counters 1, 2, …
(each suffix is attached to the previous candidate's stem). -/
def iterCand (dest : String) (i : Nat) : Nat → String
  | 0 => dest
  | k + 1 => iterCand (nextCand dest i) (i + 1) k

/-- `final_asset_path` seen as a call with the filesystem threaded
through: it returns the chosen path and the unchanged file set — its only
filesystem effect is `mkdir` on directories, so no *file* is created at
the returned path. -/
def final_asset_path_call (occupied : List String) (filename : String) :
    String × List String :=
  (final_asset_path occupied filename, occupied)

/-- The destination-computation loop of `RssToMdApp.process_feed`
(lines 124-127): each staged enclosure's final path comes from a
`final_asset_path` call against the directory contents the previous call
handed back; the loop creates no file between calls (assets move only
after the database insert succeeds), so every call sees the same
contents. -/
def process_feed_final_paths : List String → List String → List String
  | _, [] => []
  | occupied, f :: fs =>
    let r := final_asset_path_call occupied f
    r.1 :: process_feed_final_paths r.2 fs

/-- The collision sequence as the spec words it: `name-1.ext`,
`name-2.ext`, …, every suffix attached to the stem of the *original*
filename.  Written from the spec sentence for comparison with the code's
`final_asset_path`. -/
def specCand (filename : String) : Nat → String
  | 0 => filename
  | k + 1 => pyStem filename ++ "-" ++ toString (k + 1) ++ pySuffix filename

/-- Search loop for the spec-worded sequence. -/
def specSearchAux (occupied : List String) (filename : String) : Nat → Nat → String
  | 0, k => specCand filename k
  | fuel + 1, k =>
    if specCand filename k ∈ occupied then specSearchAux occupied filename fuel (k + 1)
    else specCand filename k

/-- First free name in the spec's sequence (spec-words counterpart of
`final_asset_path`, searched with the same fuel bound). -/
def final_asset_path_specwords (occupied : List String) (filename : String) : String :=
  specSearchAux occupied filename (occupied.length + 1) 0

/-- `AssetManager.download_to_temp`: the HTTP transport outcome made
explicit.  `chunks` are the byte chunks `iter_content` would yield. -/
structure HttpResponse where
  status : Nat
  chunks : List (List Nat)
deriving DecidableEq, Repr

inductive TransportOutcome
  | netError
  | response (r : HttpResponse)
deriving DecidableEq, Repr

/-- Python's `open`: requesting a text `encoding` together with a binary
mode raises `ValueError` before any file handle is produced. -/
def openForWrite (binaryMode : Bool) (encoding : Option String) : Except Unit Unit :=
  if binaryMode && encoding.isSome then Except.error () else Except.ok ()

/-- `AssetManager.download_to_temp`.  The whole body sits in a
`try/except Exception: return None`; `raise_for_status` fails on a 4xx/5xx
status; the body is then written via `open(tf, "wb", encoding="utf-8")`. -/
def download_to_temp (t : TransportOutcome) (tmpName : String) : Option String :=
  match t with
  | TransportOutcome.netError => none
  | TransportOutcome.response r =>
    if 400 ≤ r.status then none
    else
      match openForWrite true (some "utf-8") with
      | Except.error _ => none
      | Except.ok _ => some tmpName

/-! ## `services/MarkdownStore.py`

The `posts` table is a list of rows; SQLite's `UNIQUE` columns treat
`NULL`s as pairwise distinct, so the guid constraint only ever fires
between two non-null guids.  The content directory is the list of file
paths that exist; file contents are not tracked, only presence (the text
written to the temp file is `render_post` below). -/

structure PostRow where
  guid : Option String
  fingerprint : String
  title : String
  path : String
  date : String
  fetched_at : String
  source_url : String
  feed_title : String
deriving DecidableEq, Repr

structure StoreState where
  db : List PostRow
  fs : List String
deriving DecidableEq, Repr

/-- Add a path to the file set if not already present (`os.replace`
overwrites, so presence-wise this is an insert). -/
def fsInsert (p : String) (fs : List String) : List String :=
  if p ∈ fs then fs else p :: fs

/-- `SELECT 1 FROM posts WHERE guid = ?` guarded by `if guid:` — the
query runs only for a truthy guid, and `NULL` rows never match a bound
string. -/
def guidSelectHit (g : Option String) (db : List PostRow) : Bool :=
  if optTruthy g then db.any fun r => r.guid == g else false

/-- `SELECT 1 FROM posts WHERE fingerprint = ?`. -/
def fpHit (fp : String) (db : List PostRow) : Bool :=
  db.any fun r => r.fingerprint == fp

/-- `MarkdownStore.exists_guid_or_fp`. -/
def exists_guid_or_fp (guid : Option String) (fingerprint : String)
    (db : List PostRow) : Bool :=
  guidSelectHit guid db || fpHit fingerprint db

/-- Whether `INSERT INTO posts` raises `sqlite3.IntegrityError`: a
`UNIQUE` violation on guid (between non-null guids only) or on
fingerprint. -/
def insertViolates (g : Option String) (fp : String) (db : List PostRow) : Bool :=
  (match g with
    | some s => db.any fun r => r.guid == some s
    | none => false) || fpHit fp db

/-- The double-quote character, as a string. -/
def dq : String := ⟨[Char.ofNat 34]⟩

/-- `item.title.replace('"', "'")`. -/
def replaceDq (s : String) : String :=
  ⟨s.data.map fun c => if c = Char.ofNat 34 then Char.ofNat 39 else c⟩

/-- Path splitting on `/`. -/
def splitPath (s : String) : List String := s.splitOn "/"

/-- Componentwise core of `os.path.relpath` for plain relative POSIX
paths without dot components. -/
def relAux : List String → List String → List String
  | xs, [] => xs
  | [], ys => ys.map fun _ => ".."
  | x :: xs, y :: ys =>
    if x = y then relAux xs ys else ((y :: ys).map fun _ => "..") ++ x :: xs

/-- `p.relative_to(base)` with the `os.path.relpath(p, base)` fallback
`atomic_write_post` uses when `p` does not live under `base`. -/
def relTo (base p : String) : String :=
  let bp := base ++ "/"
  if p.data.take bp.data.length = bp.data then ⟨p.data.drop bp.data.length⟩
  else
    let joined := String.intercalate "/" (relAux (splitPath p) (splitPath base))
    pyOrStr joined "."

/-- The markdown document `atomic_write_post` renders: the frontmatter
line list joined with newlines (its trailing empty element yields the
newline after the closing delimiter), then the body — content and one
embed per non-null staged asset path, joined by blank lines with empty
pieces filtered out. -/
def render_post (feed_title : String) (item : FeedItem)
    (asset_final_paths : List (Option String)) (output_dir nowIso : String) : String :=
  let frontmatter : List String :=
    [ "---",
      "title: " ++ dq ++ replaceDq item.title ++ dq,
      "date: " ++ dq ++ item.published_iso ++ dq,
      "source_url: " ++ dq ++ item.link ++ dq,
      "guid: " ++ dq ++ item.guid.getD "" ++ dq,
      "fingerprint: " ++ dq ++ item.fingerprint ++ dq,
      "original_feed: " ++ dq ++ feed_title ++ dq,
      "fetched_at: " ++ dq ++ nowIso ++ dq,
      "---",
      "" ]
  let asset_md : List String := asset_final_paths.filterMap fun p =>
    p.map fun q => "![" ++ item.title ++ "](" ++ relTo output_dir q ++ ")"
  let body := String.intercalate "\n\n" ((item.content :: asset_md).filter fun s => s ≠ "")
  String.intercalate "\n" frontmatter ++ body

/-- The final document path `atomic_write_post` computes:
`<output_dir>/<published_date>-<title_slug>.md`. -/
def post_path (output_dir : String) (item : FeedItem) : String :=
  output_dir ++ "/" ++ (item.published_date_str ++ "-" ++ safe_slug item.title ++ ".md")

/-- The row `atomic_write_post` inserts on success. -/
def post_row (feed_title : String) (item : FeedItem) (output_dir nowIso : String) : PostRow :=
  { guid := item.guid, fingerprint := item.fingerprint, title := item.title,
    path := post_path output_dir item, date := item.published_iso, fetched_at := nowIso,
    source_url := item.link, feed_title := feed_title }

/-- Concatenation of pieces each preceded by a separator (used to state
how the body glues embeds after the content). -/
def glue (sep : String) : List String → String
  | [] => ""
  | e :: es => sep ++ e ++ glue sep es

/-- `MarkdownStore.atomic_write_post`.  `tmp_path` is the fresh name
`tempfile.mkstemp` hands out; `nowIso` is the `now_iso()` value recorded
in the row.  Creating the temp file adds it to the file set; every
rollback branch deletes it; a successful commit renames it to the final
path. -/
def atomic_write_post (feed_title : String) (item : FeedItem)
    (asset_final_paths : List (Option String)) (output_dir nowIso tmp_path : String)
    (st : StoreState) : Option String × StoreState :=
  let post_slug := safe_slug item.title
  let filename := item.published_date_str ++ "-" ++ post_slug ++ ".md"
  let final_path := output_dir ++ "/" ++ filename
  let _doc := render_post feed_title item asset_final_paths output_dir nowIso
  let fs1 := tmp_path :: st.fs
  if guidSelectHit item.guid st.db then
    (none, { db := st.db, fs := fs1.erase tmp_path })
  else if fpHit item.fingerprint st.db then
    (none, { db := st.db, fs := fs1.erase tmp_path })
  else if insertViolates item.guid item.fingerprint st.db then
    (none, { db := st.db, fs := fs1.erase tmp_path })
  else
    let row : PostRow :=
      { guid := item.guid, fingerprint := item.fingerprint, title := item.title,
        path := final_path, date := item.published_iso, fetched_at := nowIso,
        source_url := item.link, feed_title := feed_title }
    (some final_path, { db := st.db ++ [row], fs := fsInsert final_path (fs1.erase tmp_path) })

/-! ## Helper definitions for stating document structure (claim C7) -/

/-- The nine visible frontmatter lines of a rendered document (the source
list carries a trailing empty element whose only effect is the newline
after the closing delimiter). -/
def header_lines (feed_title : String) (item : FeedItem) (nowIso : String) : List String :=
  [ "---",
    "title: " ++ dq ++ replaceDq item.title ++ dq,
    "date: " ++ dq ++ item.published_iso ++ dq,
    "source_url: " ++ dq ++ item.link ++ dq,
    "guid: " ++ dq ++ item.guid.getD "" ++ dq,
    "fingerprint: " ++ dq ++ item.fingerprint ++ dq,
    "original_feed: " ++ dq ++ feed_title ++ dq,
    "fetched_at: " ++ dq ++ nowIso ++ dq,
    "---" ]

/-- The embed reference rendered for one finalized asset path. -/
def embed_ref (item : FeedItem) (output_dir : String) (p : String) : String :=
  "![" ++ item.title ++ "](" ++ relTo output_dir p ++ ")"

/-! ## Concrete fixtures used by witnesses and counterexamples -/

/-- A feedparser-realizable entry: the `guid` and `id` reads agree. -/
def entryC6a : RawEntry :=
  { title := some "T", guid := some "A", id := some "A", link := some "L",
    contentBlocks := [], description := none, summary := none,
    published_parsed := none, updated_parsed := none, enclosures := [] }

/-- A feedparser-realizable entry with no id and a present-but-empty
link. -/
def entryC6b : RawEntry :=
  { title := some "T", guid := none, id := none, link := some "",
    contentBlocks := [], description := none, summary := none,
    published_parsed := none, updated_parsed := none, enclosures := [] }

/-- Entry whose content carries a double space. -/
def entryC3a : RawEntry :=
  { title := some "T", guid := none, id := none, link := some "L",
    contentBlocks := ["a  b"], description := none, summary := none,
    published_parsed := none, updated_parsed := none, enclosures := [] }

/-- Same entry up to whitespace inside the content. -/
def entryC3b : RawEntry :=
  { title := some "T", guid := none, id := none, link := some "L",
    contentBlocks := ["a \t b"], description := none, summary := none,
    published_parsed := none, updated_parsed := none, enclosures := [] }

/-- Same entry with a real content change. -/
def entryC3c : RawEntry :=
  { title := some "T", guid := none, id := none, link := some "L",
    contentBlocks := ["a c"], description := none, summary := none,
    published_parsed := none, updated_parsed := none, enclosures := [] }

/-- Entry with no title key. -/
def entryC10a : RawEntry :=
  { title := none, guid := some "gid", id := none, link := some "L",
    contentBlocks := ["C"], description := none, summary := none,
    published_parsed := none, updated_parsed := none, enclosures := [] }

/-- Entry explicitly titled "untitled", identical link and content. -/
def entryC10b : RawEntry :=
  { title := some "untitled", guid := some "gid", id := none, link := some "L",
    contentBlocks := ["C"], description := none, summary := none,
    published_parsed := none, updated_parsed := none, enclosures := [] }

/-- The scenario item: `guid="abc123"`, title "Zero-Day Found". -/
def itemC1 : FeedItem :=
  { guid := some "abc123", fingerprint := "fp-abc", title := "Zero-Day Found",
    link := "https://example.com/zero-day", content := "Body text.",
    published_iso := "2024-03-01T00:00:00Z", published_date_str := "2024-03-01",
    enclosures := [] }

/-- A persisted row carrying the scenario identity. -/
def rowC2 : PostRow :=
  { guid := some "abc123", fingerprint := "fp-abc", title := "Zero-Day Found",
    path := "content/2024-03-01-zero-day-found.md", date := "2024-03-01T00:00:00Z",
    fetched_at := "NOW", source_url := "https://example.com/zero-day",
    feed_title := "Feed" }

/-- Item used to exercise the rendered document structure. -/
def itemC7 : FeedItem :=
  { guid := some "g7", fingerprint := "fp7", title := "T7", link := "http://x",
    content := "Hello", published_iso := "2024-03-01T00:00:00Z",
    published_date_str := "2024-03-01", enclosures := [] }

/-- Guid-less item with a fresh fingerprint. -/
def itemC9 : FeedItem :=
  { guid := none, fingerprint := "f3", title := "T9", link := "http://y",
    content := "C9", published_iso := "2024-03-02T00:00:00Z",
    published_date_str := "2024-03-02", enclosures := [] }

/-- Two rows with `NULL` guid already in the table. -/
def rowN1 : PostRow :=
  { guid := none, fingerprint := "f1", title := "A", path := "content/a.md",
    date := "d", fetched_at := "n", source_url := "u", feed_title := "F" }

def rowN2 : PostRow :=
  { guid := none, fingerprint := "f2", title := "B", path := "content/b.md",
    date := "d", fetched_at := "n", source_url := "u", feed_title := "F" }

/-! ## Shared lemmas -/

theorem pyOrStr_empty_right (s : String) : pyOrStr s "" = s := by
  unfold pyOrStr
  split <;> simp_all

theorem string_append_left_cancel {s a b : String} (h : s ++ a = s ++ b) : a = b := by
  have hd : s.data ++ a.data = s.data ++ b.data := by
    rw [← String.data_append, ← String.data_append, h]
  cases a
  cases b
  exact congrArg String.mk (List.append_cancel_left hd)

theorem pyStem_append_pySuffix (name : String) : pyStem name ++ pySuffix name = name := by
  unfold pyStem pySuffix
  cases h : pyDotIdx name.data with
  | none => exact String.append_empty name
  | some i =>
    simp only []
    calc (⟨name.data.take i⟩ : String) ++ ⟨name.data.drop i⟩
        = ⟨name.data.take i ++ name.data.drop i⟩ := rfl
      _ = ⟨name.data⟩ := by rw [List.take_append_drop]
      _ = name := rfl

theorem length_nextCand (d : String) (i : Nat) : d.length < (nextCand d i).length := by
  have h := congrArg String.length (pyStem_append_pySuffix d)
  rw [String.length_append] at h
  unfold nextCand
  rw [String.length_append, String.length_append, String.length_append]
  have h1 : ("-" : String).length = 1 := rfl
  omega

theorem iterCand_length_lt (k : Nat) :
    ∀ (d : String) (i : Nat), (iterCand d i k).length < (iterCand d i (k + 1)).length := by
  induction k with
  | zero => intro d i; exact length_nextCand d i
  | succ k ih => intro d i; exact ih (nextCand d i) (i + 1)

theorem iterCand_exists_free (occ : List String) (d : String) (i : Nat) :
    ∃ k, k ≤ occ.length ∧ iterCand d i k ∉ occ := by
  by_contra hcon
  push_neg at hcon
  have mono : StrictMono fun k => (iterCand d i k).length :=
    strictMono_nat_of_lt_succ fun k => iterCand_length_lt k d i
  have inj : Function.Injective fun k => iterCand d i k := fun a b hab =>
    mono.injective (congrArg String.length hab)
  have hsub : ∀ k ∈ Finset.range (occ.length + 1), iterCand d i k ∈ occ.toFinset := by
    intro k hk
    exact List.mem_toFinset.mpr (hcon k (Nat.lt_succ_iff.mp (Finset.mem_range.mp hk)))
  have hcard := Finset.card_le_card_of_injOn _ hsub fun a _ b _ hab => inj hab
  have hlen := occ.toFinset_card_le
  simp [Finset.card_range] at hcard
  omega

theorem finalAssetPathAux_spec (occ : List String) :
    ∀ (fuel : Nat) (d : String) (i : Nat),
      (∃ k, k ≤ fuel ∧ iterCand d i k ∉ occ) →
      ∃ K, finalAssetPathAux occ fuel d i = iterCand d i K ∧ iterCand d i K ∉ occ ∧
        ∀ j, j < K → iterCand d i j ∈ occ := by
  intro fuel
  induction fuel with
  | zero =>
    intro d i h
    obtain ⟨k, hk, hfree⟩ := h
    have hk0 : k = 0 := Nat.le_zero.mp hk
    subst hk0
    exact ⟨0, rfl, hfree, by omega⟩
  | succ fuel ih =>
    intro d i h
    obtain ⟨k, hk, hfree⟩ := h
    by_cases hd : d ∈ occ
    · have step : finalAssetPathAux occ (fuel + 1) d i =
          finalAssetPathAux occ fuel (nextCand d i) (i + 1) := by
        simp [finalAssetPathAux, hd]
      have hk0 : k ≠ 0 := by
        rintro rfl
        exact hfree hd
      obtain ⟨k', rfl⟩ := Nat.exists_eq_succ_of_ne_zero hk0
      obtain ⟨K, h1, h2, h3⟩ := ih (nextCand d i) (i + 1) ⟨k', by omega, hfree⟩
      refine ⟨K + 1, ?_, h2, ?_⟩
      · rw [step]
        exact h1
      · intro j hj
        cases j with
        | zero => exact hd
        | succ j' => exact h3 j' (by omega)
    · refine ⟨0, ?_, hd, by omega⟩
      simp [finalAssetPathAux, iterCand, hd]

/-- C4 counterexample: (i) with both `name.ext` and `name-1.ext`
occupied, the code resolves to `name-1-2.ext` — the suffix is appended
to the *previous candidate's* stem — not the `name-2.ext` of the claimed
sequence `name-1.ext`, `name-2.ext`, …; (ii) in `process_feed`, two
enclosures resolving to the same filename `image.png` both get the
*same* final path `image.png` (no file is created between the two
calls), so the second does not resolve to `image-1.png`. -/
theorem c4_counterexample :
    final_asset_path ["name.ext", "name-1.ext"] "name.ext" = "name-1-2.ext" ∧
    final_asset_path_specwords ["name.ext", "name-1.ext"] "name.ext" = "name-2.ext" ∧
    ("name-1-2.ext" : String) ≠ "name-2.ext" ∧
    process_feed_final_paths [] ["image.png", "image.png"] = ["image.png", "image.png"] ∧
    (["image.png", "image.png"] : List String) ≠ ["image.png", "image-1.png"] := by
  refine ⟨by decide, by decide, by decide, by decide, by decide⟩

/-- C4 (amended): when the destination name is already occupied,
`final_asset_path` resolves the collision by the sequence `name-1.ext`,
`name-1-2.ext`, `name-1-2-3.ext`, … — each numeric suffix appended to
the previous candidate's stem — and returns the first free name in that
sequence; when two enclosures resolve to the same computed filename
`image.png` in the same destination directory, `process_feed` computes
the same path `image.png` for both, and a call resolves to `image-1.png`
when a file already occupies `image.png`. -/
theorem c4_amended :
    final_asset_path ["image.png"] "image.png" = "image-1.png" ∧
    process_feed_final_paths [] ["image.png", "image.png"] = ["image.png", "image.png"] ∧
    ∀ (occupied : List String) (filename : String),
      ∃ K, final_asset_path occupied filename = iterCand filename 1 K ∧
        iterCand filename 1 K ∉ occupied ∧
        ∀ j, j < K → iterCand filename 1 j ∈ occupied := by
  refine ⟨by decide, by decide, ?_⟩
  intro occupied filename
  obtain ⟨k, hk, hfree⟩ := iterCand_exists_free occupied filename 1
  exact finalAssetPathAux_spec occupied (occupied.length + 1) filename 1 ⟨k, by omega, hfree⟩

/-- C5 counterexample: two successive `final_asset_path` calls with
identical arguments and no intervening filesystem change return the *same*
path (here both return `image.png`), contradicting the claimed pair of
distinct numerically suffixed paths. -/
theorem c5_counterexample :
    (final_asset_path_call [] "image.png").1 = "image.png" ∧
    (final_asset_path_call (final_asset_path_call [] "image.png").2 "image.png").1 =
      "image.png" := by
  refine ⟨by decide, by decide⟩

/-- C5 (amended): `final_asset_path` creates no file, so a second call
with identical arguments and unchanged directory contents returns the
identical path; two distinct paths differing by the numeric suffix arise
only once a file is placed at the first returned name, after which the
call resolves to `stem-1.ext`. -/
theorem c5_amended (occupied : List String) (filename : String)
    (h1 : filename ∉ occupied) (h2 : nextCand filename 1 ∉ occupied) :
    (final_asset_path_call occupied filename).2 = occupied ∧
    (final_asset_path_call (final_asset_path_call occupied filename).2 filename).1 =
      (final_asset_path_call occupied filename).1 ∧
    (final_asset_path_call occupied filename).1 = filename ∧
    final_asset_path (fsInsert filename occupied) filename = nextCand filename 1 ∧
    nextCand filename 1 ≠ filename := by
  have hbase : final_asset_path occupied filename = filename := by
    unfold final_asset_path
    simp [finalAssetPathAux, h1]
  have hne : nextCand filename 1 ≠ filename := by
    intro he
    have := length_nextCand filename 1
    rw [he] at this
    omega
  refine ⟨rfl, rfl, hbase, ?_, hne⟩
  unfold final_asset_path fsInsert
  rw [if_neg h1]
  have hmem : filename ∈ filename :: occupied := List.mem_cons_self _ _
  have hnot : nextCand filename 1 ∉ filename :: occupied := by
    intro hmem2
    rcases List.mem_cons.mp hmem2 with he | hin
    · exact hne he
    · exact h2 hin
  simp [finalAssetPathAux, hmem, hnot]

/-- C5 witness: the amended statement at `occupied = []`,
`filename = "image.png"`. -/
theorem c5_witness :
    ("image.png" : String) ∉ ([] : List String) ∧
    nextCand "image.png" 1 ∉ ([] : List String) ∧
    ((final_asset_path_call [] "image.png").1 = "image.png" ∧
      final_asset_path (fsInsert "image.png" []) "image.png" = nextCand "image.png" 1) :=
  ⟨by decide, by decide,
    ⟨(c5_amended [] "image.png" (by decide) (by decide)).2.2.1,
     (c5_amended [] "image.png" (by decide) (by decide)).2.2.2.1⟩⟩

/-- C8: the claim is right about transport errors (they yield `None`),
but the success path is broken in the code: `open(tf, "wb",
encoding="utf-8")` raises `ValueError` (binary mode rejects an encoding
argument), which the blanket `except` swallows — so `download_to_temp`
returns `None` for *every* input and never returns the temp-file path. -/
theorem c8_download_always_none :
    ∀ (t : TransportOutcome) (tmpName : String), download_to_temp t tmpName = none := by
  intro t tmp
  cases t with
  | netError => rfl
  | response r =>
    unfold download_to_temp openForWrite
    split <;> simp

theorem optTruthy_ne_none {v : Option String} (h : optTruthy v = true) : v ≠ none := by
  cases v <;> simp_all [optTruthy]

theorem parse_item_fingerprint (hash : String → String) (nowIso nowDate : String)
    (e : RawEntry) :
    (parse_item hash nowIso nowDate e).fingerprint =
      hash (resolveTitle e ++ "|" ++ resolveLink e ++ "|" ++
        pyTake 2000 (normalizeWs (resolveContent e))) := by
  simp [parse_item, fingerprintInput, pyOrStr_empty_right]

/-- C3: the fingerprint hashes
`title ++ "|" ++ link ++ "|" ++ (whitespace-collapsed content truncated to
2000 characters)`; hence, for entries with equal (stripped) title and
link, the fingerprints agree exactly when the first 2000 characters of
the whitespace-normalized contents agree — whitespace-only differences
are invisible, any surviving difference changes the fingerprint
(assuming the digest is injective on the inputs involved). -/
theorem c3_fingerprint_stability (hash : String → String)
    (hinj : Function.Injective hash) (nowIso nowDate : String) (e1 e2 : RawEntry)
    (ht : resolveTitle e1 = resolveTitle e2) (hl : resolveLink e1 = resolveLink e2) :
    (parse_item hash nowIso nowDate e1).fingerprint =
      hash (resolveTitle e1 ++ "|" ++ resolveLink e1 ++ "|" ++
        pyTake 2000 (normalizeWs (resolveContent e1))) ∧
    ((parse_item hash nowIso nowDate e1).fingerprint =
        (parse_item hash nowIso nowDate e2).fingerprint ↔
      pyTake 2000 (normalizeWs (resolveContent e1)) =
        pyTake 2000 (normalizeWs (resolveContent e2))) := by
  refine ⟨parse_item_fingerprint hash nowIso nowDate e1, ?_, ?_⟩
  · intro heq
    rw [parse_item_fingerprint, parse_item_fingerprint] at heq
    have h2 := hinj heq
    rw [← ht, ← hl] at h2
    exact string_append_left_cancel h2
  · intro heq
    rw [parse_item_fingerprint, parse_item_fingerprint, ht, hl, heq]

/-- C3 witness: whitespace-only variants of the same content fingerprint
identically, while a real content change (with the identity digest) does
not. -/
theorem c3_witness :
    Function.Injective (fun s : String => s) ∧
    resolveTitle entryC3a = resolveTitle entryC3b ∧
    resolveLink entryC3a = resolveLink entryC3b ∧
    (parse_item (fun s => s) "N" "D" entryC3a).fingerprint =
      (parse_item (fun s => s) "N" "D" entryC3b).fingerprint ∧
    (parse_item (fun s => s) "N" "D" entryC3a).fingerprint ≠
      (parse_item (fun s => s) "N" "D" entryC3c).fingerprint :=
  ⟨fun _ _ h => h, by decide, by decide,
   ((c3_fingerprint_stability (fun s => s) (fun _ _ h => h) "N" "D" entryC3a entryC3b
      (by decide) (by decide)).2).mpr (by decide),
   fun h =>
     (by decide : ¬(pyTake 2000 (normalizeWs (resolveContent entryC3a)) =
        pyTake 2000 (normalizeWs (resolveContent entryC3c))))
       (((c3_fingerprint_stability (fun s => s) (fun _ _ h => h) "N" "D" entryC3a entryC3c
          (by decide) (by decide)).2).mp h)⟩

/-- C6 counterexample: on a feedparser-realizable entry (the `guid` and
`id` reads agree — here both absent) whose `link` key is present but
empty, `parse_item` resolves the guid to `None` even though not all
three candidates are absent — refuting the claim's "None only when all
three candidates are absent". -/
theorem c6_counterexample :
    entryC6b.guid = entryC6b.id ∧
    entryC6b.link = some "" ∧
    entryC6b.link ≠ none ∧
    (parse_item (fun s => s) "N" "D" entryC6b).guid = none := by
  refine ⟨rfl, rfl, by decide, by decide⟩

/-- C6 (amended): on the entries feedparser produces (where the `guid`
read is an alias for the `id` read), `parse_item` resolves the guid by
the claim's fallback chain — id first, else guid field, else link — and
the resulting guid is `None` exactly when all three candidates are
absent or empty. -/
theorem c6_amended (hash : String → String) (nowIso nowDate : String) (e : RawEntry)
    (halias : e.guid = e.id) :
    (parse_item hash nowIso nowDate e).guid = resolveGuid_specwords e ∧
    ((parse_item hash nowIso nowDate e).guid = none ↔
      optTruthy e.id = false ∧ optTruthy e.guid = false ∧ optTruthy e.link = false) := by
  constructor
  · simp [parse_item, resolveGuidChain, resolveGuid_specwords, halias]
  · cases hi : optTruthy e.id <;> cases hl : optTruthy e.link <;>
      simp_all [parse_item, resolveGuidChain, pyOrOpt, optTruthy_ne_none, halias]

/-- C6 witness: an aliased entry (`guid` and `id` both "A") resolves to
that id value, agreeing with the claim's id-first chain. -/
theorem c6_witness :
    entryC6a.guid = entryC6a.id ∧
    (parse_item (fun s => s) "N" "D" entryC6a).guid = resolveGuid_specwords entryC6a ∧
    (parse_item (fun s => s) "N" "D" entryC6a).guid = some "A" :=
  ⟨rfl, (c6_amended (fun s => s) "N" "D" entryC6a rfl).1, by decide⟩

/-- C10: an entry with no (or an empty) title yields a `FeedItem` titled
`"untitled"` whose fingerprint hashes the *empty* title string, so it
differs from the fingerprint of an entry explicitly titled "untitled"
with the same link and content (assuming an injective digest). -/
theorem c10_untitled_fingerprint (hash : String → String)
    (hinj : Function.Injective hash) (nowIso nowDate : String) (e e2 : RawEntry)
    (h1 : resolveTitle e = "") (h2 : resolveTitle e2 = "untitled")
    (hl : resolveLink e = resolveLink e2) (hc : resolveContent e = resolveContent e2) :
    (parse_item hash nowIso nowDate e).title = "untitled" ∧
    (parse_item hash nowIso nowDate e).fingerprint =
      hash ("" ++ "|" ++ resolveLink e ++ "|" ++
        pyTake 2000 (normalizeWs (resolveContent e))) ∧
    (parse_item hash nowIso nowDate e).fingerprint ≠
      (parse_item hash nowIso nowDate e2).fingerprint := by
  refine ⟨?_, ?_, ?_⟩
  · simp [parse_item, pyOrStr, h1]
  · rw [parse_item_fingerprint, h1]
  · intro heq
    rw [parse_item_fingerprint, parse_item_fingerprint] at heq
    have h3 := hinj heq
    rw [h1, h2, hl, hc] at h3
    have h4 := congrArg String.length h3
    simp only [String.length_append] at h4
    have e1 : ("" : String).length = 0 := rfl
    have e2l : ("untitled" : String).length = 8 := rfl
    have e3 : ("|" : String).length = 1 := rfl
    simp only [e1, e2l, e3] at h4
    omega

/-- C10 witness: a title-less entry versus an entry titled "untitled"
with identical link and content, under the identity digest. -/
theorem c10_witness :
    resolveTitle entryC10a = "" ∧
    resolveTitle entryC10b = "untitled" ∧
    (parse_item (fun s => s) "N" "D" entryC10a).title = "untitled" ∧
    (parse_item (fun s => s) "N" "D" entryC10a).fingerprint ≠
      (parse_item (fun s => s) "N" "D" entryC10b).fingerprint :=
  ⟨by decide, by decide,
   (c10_untitled_fingerprint (fun s => s) (fun _ _ h => h) "N" "D" entryC10a entryC10b
     (by decide) (by decide) (by decide) (by decide)).1,
   (c10_untitled_fingerprint (fun s => s) (fun _ _ h => h) "N" "D" entryC10a entryC10b
     (by decide) (by decide) (by decide) (by decide)).2.2⟩

theorem insertViolates_false_parts {g : Option String} {fp : String} {db : List PostRow}
    (h : insertViolates g fp db = false) :
    guidSelectHit g db = false ∧ fpHit fp db = false := by
  unfold insertViolates at h
  rw [Bool.or_eq_false_iff] at h
  obtain ⟨h1, h2⟩ := h
  refine ⟨?_, h2⟩
  unfold guidSelectHit
  cases g with
  | none => simp [optTruthy]
  | some s =>
    split
    · exact h1
    · rfl

/-- Every rollback branch of `atomic_write_post` returns `Duplicate`
(`None`) and restores the state exactly: the temp document is deleted,
no row is inserted, no file appears at the final path. -/
theorem awp_rollback (feed_title : String) (item : FeedItem)
    (paths : List (Option String)) (output_dir nowIso tmp : String) (st : StoreState)
    (_htmp : tmp ∉ st.fs)
    (hdup : guidSelectHit item.guid st.db = true ∨ fpHit item.fingerprint st.db = true ∨
      insertViolates item.guid item.fingerprint st.db = true) :
    atomic_write_post feed_title item paths output_dir nowIso tmp st = (none, st) := by
  have hfs : (tmp :: st.fs).erase tmp = st.fs := List.erase_cons_head tmp st.fs
  by_cases b1 : guidSelectHit item.guid st.db = true
  · simp [atomic_write_post, b1, hfs]
  · by_cases b2 : fpHit item.fingerprint st.db = true
    · simp [atomic_write_post, b1, b2, hfs]
    · have b3 : insertViolates item.guid item.fingerprint st.db = true := by
        rcases hdup with h | h | h
        · exact absurd h b1
        · exact absurd h b2
        · exact h
      simp [atomic_write_post, b1, b2, b3, hfs]

/-- When neither identity is present, `atomic_write_post` inserts exactly
one row and moves the document to the final path. -/
theorem awp_success (feed_title : String) (item : FeedItem)
    (paths : List (Option String)) (output_dir nowIso tmp : String) (st : StoreState)
    (_htmp : tmp ∉ st.fs)
    (hfresh : insertViolates item.guid item.fingerprint st.db = false) :
    atomic_write_post feed_title item paths output_dir nowIso tmp st =
      (some (post_path output_dir item),
       { db := st.db ++ [post_row feed_title item output_dir nowIso],
         fs := fsInsert (post_path output_dir item) st.fs }) := by
  obtain ⟨hg, hf⟩ := insertViolates_false_parts hfresh
  have hfs : (tmp :: st.fs).erase tmp = st.fs := List.erase_cons_head tmp st.fs
  simp [atomic_write_post, post_path, post_row, hg, hf, hfresh, hfs]

/-- C1: committing an item whose guid and fingerprint match no existing
row inserts exactly one row, creates the document at
`<output_dir>/<date>-<title-slug>.md`, and returns that path; any second
commit carrying the same (non-null) guid or the same fingerprint returns
`Duplicate` (`None`), leaves the row list unchanged and creates no file. -/
theorem c1_commit_once_then_duplicate (feed_title : String) (item : FeedItem)
    (paths : List (Option String)) (output_dir nowIso tmp : String) (st : StoreState)
    (htmp : tmp ∉ st.fs)
    (hfresh : insertViolates item.guid item.fingerprint st.db = false)
    (res : Option String) (st2 : StoreState)
    (hcall : atomic_write_post feed_title item paths output_dir nowIso tmp st = (res, st2)) :
    res = some (post_path output_dir item) ∧
    st2.db = st.db ++ [post_row feed_title item output_dir nowIso] ∧
    st2.fs = fsInsert (post_path output_dir item) st.fs ∧
    ∀ (feed2 : String) (item2 : FeedItem) (paths2 : List (Option String))
      (odir2 now2 tmp2 : String) (res2 : Option String) (st3 : StoreState),
      tmp2 ∉ st2.fs →
      ((item2.guid = item.guid ∧ item.guid ≠ none) ∨
        item2.fingerprint = item.fingerprint) →
      atomic_write_post feed2 item2 paths2 odir2 now2 tmp2 st2 = (res2, st3) →
      res2 = none ∧ st3.db = st2.db ∧ st3.fs = st2.fs := by
  rw [awp_success feed_title item paths output_dir nowIso tmp st htmp hfresh] at hcall
  injection hcall with h1 h2
  subst h1
  subst h2
  refine ⟨rfl, rfl, rfl, ?_⟩
  intro feed2 item2 paths2 odir2 now2 tmp2 res2 st3 htmp2 hdup hcall2
  have hdup2 : guidSelectHit item2.guid
        (st.db ++ [post_row feed_title item output_dir nowIso]) = true ∨
      fpHit item2.fingerprint
        (st.db ++ [post_row feed_title item output_dir nowIso]) = true ∨
      insertViolates item2.guid item2.fingerprint
        (st.db ++ [post_row feed_title item output_dir nowIso]) = true := by
    rcases hdup with ⟨hgeq, hgn⟩ | hfeq
    · obtain ⟨g, hgv⟩ := Option.ne_none_iff_exists'.mp hgn
      right; right
      have hany : ((st.db ++ [post_row feed_title item output_dir nowIso]).any
          fun r => r.guid == some g) = true := by
        simp [List.any_append, post_row, hgv]
      rw [hgeq, hgv]
      simp [insertViolates, hany]
    · right; left
      simp [fpHit, List.any_append, post_row, hfeq]
  rw [awp_rollback feed2 item2 paths2 odir2 now2 tmp2 _ htmp2 hdup2] at hcall2
  injection hcall2 with h1 h2
  subst h1
  subst h2
  exact ⟨rfl, rfl, rfl⟩

/-- C1 witness: the scenario — `guid="abc123"`, title "Zero-Day Found",
empty store — commits to `content/2024-03-01-zero-day-found.md`, and
re-committing the same item is a `Duplicate` with the row list
unchanged. -/
theorem c1_witness :
    ("content/mdtmp_w1" : String) ∉ ([] : List String) ∧
    insertViolates itemC1.guid itemC1.fingerprint [] = false ∧
    (atomic_write_post "Feed" itemC1 [] "content" "NOW" "content/mdtmp_w1"
      ⟨[], []⟩).1 = some "content/2024-03-01-zero-day-found.md" ∧
    (atomic_write_post "Feed" itemC1 [] "content" "NOW2" "content/mdtmp_w2"
      (atomic_write_post "Feed" itemC1 [] "content" "NOW" "content/mdtmp_w1"
        ⟨[], []⟩).2).1 = none ∧
    (atomic_write_post "Feed" itemC1 [] "content" "NOW2" "content/mdtmp_w2"
      (atomic_write_post "Feed" itemC1 [] "content" "NOW" "content/mdtmp_w1"
        ⟨[], []⟩).2).2.db =
      (atomic_write_post "Feed" itemC1 [] "content" "NOW" "content/mdtmp_w1"
        ⟨[], []⟩).2.db :=
  ⟨by decide, by decide, by decide,
   ((c1_commit_once_then_duplicate "Feed" itemC1 [] "content" "NOW" "content/mdtmp_w1"
      ⟨[], []⟩ (by decide) (by decide) _ _ rfl).2.2.2 "Feed" itemC1 [] "content" "NOW2"
      "content/mdtmp_w2" _ _ (by decide) (Or.inr rfl) rfl).1,
   ((c1_commit_once_then_duplicate "Feed" itemC1 [] "content" "NOW" "content/mdtmp_w1"
      ⟨[], []⟩ (by decide) (by decide) _ _ rfl).2.2.2 "Feed" itemC1 [] "content" "NOW2"
      "content/mdtmp_w2" _ _ (by decide) (Or.inr rfl) rfl).2.1⟩

/-- C2: if the in-transaction re-check finds the guid or the fingerprint,
or the insert reports a uniqueness violation, `atomic_write_post` rolls
back, deletes the temporary document and returns `Duplicate` (`None`):
the store is exactly as before, no file remains at the temporary path,
and none appears at the final path. -/
theorem c2_rollback_leaves_no_file (feed_title : String) (item : FeedItem)
    (paths : List (Option String)) (output_dir nowIso tmp : String) (st : StoreState)
    (htmp : tmp ∉ st.fs)
    (hdup : guidSelectHit item.guid st.db = true ∨ fpHit item.fingerprint st.db = true ∨
      insertViolates item.guid item.fingerprint st.db = true)
    (res : Option String) (st2 : StoreState)
    (hcall : atomic_write_post feed_title item paths output_dir nowIso tmp st = (res, st2)) :
    res = none ∧ st2.db = st.db ∧ st2.fs = st.fs ∧ tmp ∉ st2.fs ∧
    (post_path output_dir item ∉ st.fs → post_path output_dir item ∉ st2.fs) := by
  rw [awp_rollback feed_title item paths output_dir nowIso tmp st htmp hdup] at hcall
  injection hcall with h1 h2
  subst h1
  subst h2
  exact ⟨rfl, rfl, rfl, htmp, fun hp => hp⟩

/-- C2 witness: committing the scenario item against a store already
holding its fingerprint rolls back with no state change. -/
theorem c2_witness :
    ("content/mdtmp_w2" : String) ∉ ([] : List String) ∧
    fpHit itemC1.fingerprint [rowC2] = true ∧
    (atomic_write_post "Feed" itemC1 [] "content" "NOW" "content/mdtmp_w2"
      ⟨[rowC2], []⟩).1 = none ∧
    (atomic_write_post "Feed" itemC1 [] "content" "NOW" "content/mdtmp_w2"
      ⟨[rowC2], []⟩).2.fs = [] :=
  ⟨by decide, by decide,
   (c2_rollback_leaves_no_file "Feed" itemC1 [] "content" "NOW" "content/mdtmp_w2"
     ⟨[rowC2], []⟩ (by decide) (Or.inr (Or.inl (by decide))) _ _ rfl).1,
   (c2_rollback_leaves_no_file "Feed" itemC1 [] "content" "NOW" "content/mdtmp_w2"
     ⟨[rowC2], []⟩ (by decide) (Or.inr (Or.inl (by decide))) _ _ rfl).2.2.1⟩

/-- C9: for a guid-less item both duplicate checks consult only the
fingerprint — the advisory probe equals the fingerprint probe, the
in-transaction outcome is `Duplicate` exactly when the fingerprint
already exists, and a fresh fingerprint always inserts its row no matter
how many `NULL`-guid rows the table holds. -/
theorem c9_guidless_checks_fingerprint_only (feed_title : String) (item : FeedItem)
    (paths : List (Option String)) (output_dir nowIso tmp : String) (st : StoreState)
    (hguid : item.guid = none) (htmp : tmp ∉ st.fs) :
    (∀ (fp : String) (db : List PostRow), exists_guid_or_fp none fp db = fpHit fp db) ∧
    ((atomic_write_post feed_title item paths output_dir nowIso tmp st).1 = none ↔
      fpHit item.fingerprint st.db = true) ∧
    (fpHit item.fingerprint st.db = false →
      (atomic_write_post feed_title item paths output_dir nowIso tmp st).2.db =
        st.db ++ [post_row feed_title item output_dir nowIso]) := by
  refine ⟨?_, ?_⟩
  · intro fp db
    simp [exists_guid_or_fp, guidSelectHit, optTruthy]
  cases hfp : fpHit item.fingerprint st.db with
  | true =>
    rw [awp_rollback feed_title item paths output_dir nowIso tmp st htmp
      (Or.inr (Or.inl hfp))]
    simp
  | false =>
    have hfresh : insertViolates item.guid item.fingerprint st.db = false := by
      rw [hguid]
      simp [insertViolates, hfp]
    rw [awp_success feed_title item paths output_dir nowIso tmp st htmp hfresh]
    simp

/-- C9 witness: a guid-less item with a fresh fingerprint commits even
though the table already holds two `NULL`-guid rows. -/
theorem c9_witness :
    itemC9.guid = none ∧
    ("content/mdtmp_w9" : String) ∉ ([] : List String) ∧
    fpHit itemC9.fingerprint [rowN1, rowN2] = false ∧
    (atomic_write_post "Feed" itemC9 [] "content" "NOW" "content/mdtmp_w9"
      ⟨[rowN1, rowN2], []⟩).2.db =
      [rowN1, rowN2] ++ [post_row "Feed" itemC9 "content" "NOW"] :=
  ⟨rfl, by decide, by decide,
   (c9_guidless_checks_fingerprint_only "Feed" itemC9 [] "content" "NOW"
     "content/mdtmp_w9" ⟨[rowN1, rowN2], []⟩ rfl (by decide)).2.2 (by decide)⟩

theorem intercalate_go_glue (sep : String) :
    ∀ (as : List String) (acc : String),
      String.intercalate.go acc sep as = acc ++ glue sep as := by
  intro as
  induction as with
  | nil =>
    intro acc
    show acc = acc ++ ""
    rw [String.append_empty]
  | cons a as ih =>
    intro acc
    show String.intercalate.go (acc ++ sep ++ a) sep as = acc ++ (sep ++ a ++ glue sep as)
    rw [ih, String.append_assoc, String.append_assoc, String.append_assoc]

theorem intercalate_eq_glue (sep c : String) (es : List String) :
    String.intercalate sep (c :: es) = c ++ glue sep es := by
  show String.intercalate.go c sep es = c ++ glue sep es
  exact intercalate_go_glue sep es c

theorem glue_append_single (sep x : String) (l : List String) :
    glue sep (l ++ [x]) = glue sep l ++ (sep ++ x) := by
  induction l with
  | nil =>
    show sep ++ x ++ "" = "" ++ (sep ++ x)
    rw [String.append_empty, String.empty_append]
  | cons a l ih =>
    show sep ++ a ++ glue sep (l ++ [x]) = sep ++ a ++ glue sep l ++ (sep ++ x)
    rw [ih]
    simp only [String.append_assoc]

theorem embed_ref_ne_empty (item : FeedItem) (odir p : String) :
    embed_ref item odir p ≠ "" := by
  intro h
  have hlen := congrArg String.length h
  unfold embed_ref at hlen
  simp only [String.length_append] at hlen
  have h1 : ("![" : String).length = 2 := rfl
  have h2 : ("" : String).length = 0 := rfl
  simp only [h1, h2] at hlen
  omega

/-- C7 counterexample: the rendered document has *no blank line* between
the closing header delimiter and the item body — the body starts on the
very next line — so the claimed header-block–blank-line–body layout fails
on a concrete item. -/
theorem c7_counterexample :
    render_post "Feed" itemC7 [some "content/assets/a.png"] "content" "NOW" =
      String.intercalate "\n" (header_lines "Feed" itemC7 "NOW") ++ "\n" ++ "Hello" ++
        "\n\n" ++ "![T7](assets/a.png)" ∧
    render_post "Feed" itemC7 [some "content/assets/a.png"] "content" "NOW" ≠
      String.intercalate "\n" (header_lines "Feed" itemC7 "NOW") ++ "\n\n" ++ "Hello" ++
        "\n\n" ++ "![T7](assets/a.png)" := by
  refine ⟨by decide, by decide⟩

/-- C7 (amended): the rendered document is the structured key-value
header block, then — on the immediately following line, with no blank
line between — the item's content body, then zero or more embed
references, one per staged (non-null) asset path, each pointing to a path
relative to the document's own directory and separated by blank lines. -/
theorem c7_document_structure (feed_title : String) (item : FeedItem)
    (paths : List (Option String)) (output_dir nowIso : String)
    (hc : item.content ≠ "") :
    render_post feed_title item paths output_dir nowIso =
      String.intercalate "\n" (header_lines feed_title item nowIso) ++ "\n" ++
        item.content ++
        glue "\n\n" (paths.filterMap fun p => p.map (embed_ref item output_dir)) := by
  simp only [render_post]
  have hassets :
      (paths.filterMap fun p =>
        p.map fun q => "![" ++ item.title ++ "](" ++ relTo output_dir q ++ ")") =
      paths.filterMap fun p => p.map (embed_ref item output_dir) := by
    unfold embed_ref
    rfl
  rw [hassets]
  have hfil :
      ((item.content :: paths.filterMap fun p => p.map (embed_ref item output_dir)).filter
        fun s => s ≠ "") =
      item.content :: paths.filterMap fun p => p.map (embed_ref item output_dir) := by
    apply List.filter_eq_self.mpr
    intro a ha
    rcases List.mem_cons.mp ha with rfl | hmem
    · simpa using hc
    · obtain ⟨p, _, hp⟩ := List.mem_filterMap.mp hmem
      obtain ⟨q, _, rfl⟩ := Option.map_eq_some.mp hp
      simpa using embed_ref_ne_empty item output_dir q
  rw [hfil]
  have hhead :
      String.intercalate "\n"
        [ "---",
          "title: " ++ dq ++ replaceDq item.title ++ dq,
          "date: " ++ dq ++ item.published_iso ++ dq,
          "source_url: " ++ dq ++ item.link ++ dq,
          "guid: " ++ dq ++ item.guid.getD "" ++ dq,
          "fingerprint: " ++ dq ++ item.fingerprint ++ dq,
          "original_feed: " ++ dq ++ feed_title ++ dq,
          "fetched_at: " ++ dq ++ nowIso ++ dq,
          "---",
          "" ] =
      String.intercalate "\n" (header_lines feed_title item nowIso) ++ "\n" := by
    unfold header_lines
    rw [intercalate_eq_glue, intercalate_eq_glue]
    have : ([ "title: " ++ dq ++ replaceDq item.title ++ dq,
        "date: " ++ dq ++ item.published_iso ++ dq,
        "source_url: " ++ dq ++ item.link ++ dq,
        "guid: " ++ dq ++ item.guid.getD "" ++ dq,
        "fingerprint: " ++ dq ++ item.fingerprint ++ dq,
        "original_feed: " ++ dq ++ feed_title ++ dq,
        "fetched_at: " ++ dq ++ nowIso ++ dq,
        "---", "" ] : List String) =
        [ "title: " ++ dq ++ replaceDq item.title ++ dq,
          "date: " ++ dq ++ item.published_iso ++ dq,
          "source_url: " ++ dq ++ item.link ++ dq,
          "guid: " ++ dq ++ item.guid.getD "" ++ dq,
          "fingerprint: " ++ dq ++ item.fingerprint ++ dq,
          "original_feed: " ++ dq ++ feed_title ++ dq,
          "fetched_at: " ++ dq ++ nowIso ++ dq,
          "---" ] ++ [""] := rfl
    rw [this, glue_append_single, String.append_empty, ← String.append_assoc]
  rw [hhead, intercalate_eq_glue]
  simp only [String.append_assoc]

/-- C7 witness: the amended structure at a concrete item with one staged
asset. -/
theorem c7_witness :
    itemC7.content ≠ "" ∧
    render_post "Feed" itemC7 [some "content/assets/a.png"] "content" "NOW" =
      String.intercalate "\n" (header_lines "Feed" itemC7 "NOW") ++ "\n" ++
        itemC7.content ++
        glue "\n\n" ([some "content/assets/a.png"].filterMap fun p =>
          p.map (embed_ref itemC7 "content")) :=
  ⟨by decide,
   c7_document_structure "Feed" itemC7 [some "content/assets/a.png"] "content" "NOW"
     (by decide)⟩

end BeagleWatch
